import Mathlib

/-!
Verification of the JWKS provider layer of go-jwt-middleware
(`jwks/provider.go`): the Key Fetcher (`Provider.KeyFunc`) and the
caching/refresh layer (`CachingProvider`).

The Go code is shallowly embedded: pure control flow is translated to Lean
functions, mutable provider state (`cache` map, the one-permit semaphore)
is threaded explicitly, `time.Time`/`time.Duration` are integers
(nanoseconds), and external collaborators (the HTTP transport, `net/url`
parsing, JSON decoding) are parameters of an `Env` record. Fallible Go
calls returning `(T, error)` become `Except GoError T`.
-/

namespace JWKS

/-- Go `error` values as produced by this code base: either a leaf message
(`errors.New` / an error coming out of a collaborator) or a wrapped error
built by `fmt.Errorf("<context>: %w", err)`. -/
inductive GoError where
  | mk (msg : String)
  | wrap (context : String) (inner : GoError)
deriving DecidableEq, Repr

/-- A parsed URL (`*url.URL`). `raw` is the textual form (`String()`),
`host` is the `Hostname()` component. URL parsing itself is stdlib
behaviour, supplied by the environment. -/
structure URL where
  raw : String
  host : String
deriving DecidableEq, Repr

/-- `u.Hostname()` of `net/url`. -/
def URL.hostname (u : URL) : String := u.host

/-- An HTTP request as built by `http.NewRequestWithContext`. -/
structure HTTPRequest where
  method : String
  url : String
deriving DecidableEq, Repr

/-- An HTTP response: status code and body text. -/
structure HTTPResponse where
  statusCode : Nat
  body : String
deriving DecidableEq, Repr

/-- A single JSON Web Key: identifier and algorithm (the key material is
irrelevant to the claims and elided into `material`). The set is opaque to
this layer: produced whole by decoding, never mutated. -/
structure JSONWebKey where
  kid : String
  alg : String
  material : String
deriving DecidableEq, Repr

/-- `jose.JSONWebKeySet`. -/
structure JSONWebKeySet where
  keys : List JSONWebKey
deriving DecidableEq, Repr

/-- The discovery document (`oidc.WellKnownEndpoints`), of which only the
`jwks_uri` field is consumed. -/
structure WellKnownEndpoints where
  JWKSURI : String
deriving DecidableEq, Repr

/-- The HTTP transport: what `http.Client` dispatches a request to.
`transport` is the round trip itself; errors it produces are raw network
errors, which `Client.Do` wraps (see `clientDo`). -/
structure HTTPClient where
  transport : HTTPRequest → Except GoError HTTPResponse

/-- `(*http.Client).Do`. Per the `net/http` contract, any transport
failure is returned as a `*url.Error`, which records the operation and
URL — i.e. the error always carries operation context. -/
def clientDo (c : HTTPClient) (req : HTTPRequest) : Except GoError HTTPResponse :=
  match c.transport req with
  | .error e => .error (.wrap (req.method ++ " " ++ req.url) e)
  | .ok resp => .ok resp

/-- External stdlib/library primitives consumed by the provider:
`http.NewRequestWithContext` (fallible request construction), `url.Parse`,
and the two JSON decodings (`encoding/json` into `oidc.WellKnownEndpoints`
and into `jose.JSONWebKeySet`). These are collaborators outside the
verified layer, so they are opaque parameters. -/
structure Env where
  newRequest : String → String → Except GoError HTTPRequest
  parseURL : String → Except GoError URL
  decodeWellKnown : String → Except GoError WellKnownEndpoints
  decodeJWKS : String → Except GoError JSONWebKeySet

/-- Modelled from the spec: `oidc.GetWellKnownEndpointsFromIssuerURL`
(file `internal/oidc/oidc.go`, which is not among the provided sources;
only its call site in `jwks/provider.go` is). Per the spec it resolves the
issuer URL to the discovery document over the given client and returns any
discovery failure "as an error"; all errors of the taxonomy are "opaque,
wrapped errors carrying enough context (operation name)", so each failure
is wrapped with the failing operation. -/
def GetWellKnownEndpointsFromIssuerURL (env : Env) (client : HTTPClient)
    (issuerURL : URL) : Except GoError WellKnownEndpoints :=
  match env.newRequest "GET" (issuerURL.raw ++ "/.well-known/openid-configuration") with
  | .error e => .error (.wrap "could not build request to get well known endpoints" e)
  | .ok req =>
    match clientDo client req with
    | .error e => .error (.wrap "could not get well known endpoints from url" e)
    | .ok resp =>
      match env.decodeWellKnown resp.body with
      | .error e => .error (.wrap "could not decode well known endpoints" e)
      | .ok wk => .ok wk

/-- The `Provider` struct: issuer URL (required), optional fixed JWKS URI
override, and the HTTP client. -/
structure Provider where
  IssuerURL : URL
  CustomJWKSURI : Option URL
  Client : HTTPClient

/-- Observable actions of one `Provider.KeyFunc` invocation:
how many discovery calls were made, how many HTTP requests for the JWKS
document were dispatched through the client, and the URL such a request
targeted (if one was issued). -/
structure PTrace where
  discoveryCalls : Nat
  jwksRequests : Nat
  requestedURL : Option String
deriving DecidableEq, Repr

/-- `Provider.KeyFunc` (`jwks/provider.go:64-95`), instrumented with a
`PTrace` of its outward calls. Control flow mirrors the source:
resolve the JWKS URI (the custom override if set, otherwise discovery
followed by `url.Parse` of the advertised `jwks_uri`), build the GET
request, dispatch it, decode the body. The response status code is never
inspected. Wrapping contexts are the source's `fmt.Errorf` strings. -/
def Provider.KeyFunc (p : Provider) (env : Env) :
    Except GoError JSONWebKeySet × PTrace :=
  let resolved : Except GoError URL × Nat :=
    match p.CustomJWKSURI with
    | some u => (.ok u, 0)
    | none =>
      match GetWellKnownEndpointsFromIssuerURL env p.Client p.IssuerURL with
      | .error e => (.error e, 1)
      | .ok wkEndpoints =>
        match env.parseURL wkEndpoints.JWKSURI with
        | .error e =>
          (.error (.wrap "could not parse JWKS URI from well known endpoints" e), 1)
        | .ok u => (.ok u, 1)
  match resolved with
  | (.error e, d) => (.error e, ⟨d, 0, none⟩)
  | (.ok jwksURI, d) =>
    match env.newRequest "GET" jwksURI.raw with
    | .error e =>
      (.error (.wrap "could not build request to get JWKS" e), ⟨d, 0, none⟩)
    | .ok request =>
      match clientDo p.Client request with
      | .error e => (.error e, ⟨d, 1, some jwksURI.raw⟩)
      | .ok response =>
        match env.decodeJWKS response.body with
        | .error e =>
          (.error (.wrap "could not decode jwks" e), ⟨d, 1, some jwksURI.raw⟩)
        | .ok jwks => (.ok jwks, ⟨d, 1, some jwksURI.raw⟩)

/-- A cache entry (`cachedJWKS`): the key set and its expiry instant. -/
structure cachedJWKS where
  jwks : JSONWebKeySet
  expiresAt : Int
deriving DecidableEq, Repr

/-- Lookup in the issuer-keyed cache map (Go `c.cache[issuer]`). -/
def mapLookup (m : List (String × cachedJWKS)) (k : String) : Option cachedJWKS :=
  match m with
  | [] => none
  | (k', v) :: rest => if k' = k then some v else mapLookup rest k

/-- Store in the cache map (Go `c.cache[issuer] = entry`), overwriting any
previous entry for the key. -/
def mapStore (m : List (String × cachedJWKS)) (k : String) (v : cachedJWKS) :
    List (String × cachedJWKS) :=
  match m with
  | [] => [(k, v)]
  | (k', v') :: rest =>
    if k' = k then (k, v) :: rest else (k', v') :: mapStore rest k v

/-- Delete from the cache map (Go `delete(c.cache, issuer)`). -/
def mapDelete (m : List (String × cachedJWKS)) (k : String) :
    List (String × cachedJWKS) :=
  match m with
  | [] => []
  | (k', v') :: rest =>
    if k' = k then mapDelete rest k else (k', v') :: mapDelete rest k

/-- The `CachingProvider` struct. The `sync.RWMutex` has no sequential
content; the one-permit `semaphore.Weighted` is the boolean `semFree`
(`true` = the permit is available, so `TryAcquire(1)` would succeed). -/
structure CachingProvider where
  provider : Provider
  CacheTTL : Int
  cache : List (String × cachedJWKS)
  semFree : Bool
  synchronousRefresh : Bool

/-- `CachingProvider.refreshKey` (`jwks/provider.go:206-221`): under the
write lock, delegate to the Key Fetcher; on success store a whole new
entry expiring at `now + CacheTTL` (`now` is the `time.Now()` the store
observes) and return the key set; on failure return the error with the
cache untouched. -/
def CachingProvider.refreshKey (c : CachingProvider) (issuer : String) (now : Int)
    (env : Env) : Except GoError JSONWebKeySet × CachingProvider :=
  match (c.provider.KeyFunc env).1 with
  | .error e => (.error e, c)
  | .ok jwks =>
    (.ok jwks,
     { c with cache := mapStore c.cache issuer ⟨jwks, now + c.CacheTTL⟩ })

/-- Result of one sequential `CachingProvider.KeyFunc` call: the returned
value, the provider state after the call (and, in the asynchronous branch,
after spawning but before the goroutine runs), the number of Key Fetcher
invocations performed on the caller's own control path, and whether a
background refresh goroutine was spawned. -/
structure KFResult where
  result : Except GoError JSONWebKeySet
  state : CachingProvider
  fetcherCalls : Nat
  spawnedRefresh : Bool

/-- `CachingProvider.KeyFunc` (`jwks/provider.go:161-195`), one call as a
state transformer. `now` is the `time.Now()` of the expiry check;
`tRefresh` the `time.Now()` a synchronous `refreshKey` observes when it
stores (the clock may advance across the fetch). Branches mirror the
source: cache hit and not expired (`now > expiresAt` is `After`) returns
the entry; expired with `TryAcquire` failing returns the stale entry;
expired with the permit acquired either spawns a background refresh and
returns the stale entry (asynchronous) or runs `refreshKey` on the
caller's context (synchronous), releasing the permit after; a miss runs
`refreshKey` directly, never touching the semaphore. -/
def CachingProvider.KeyFunc (c : CachingProvider) (now tRefresh : Int)
    (env : Env) : KFResult :=
  let issuer := c.provider.IssuerURL.hostname
  match mapLookup c.cache issuer with
  | some cached =>
    if now > cached.expiresAt then
      if c.semFree then
        if !c.synchronousRefresh then
          { result := .ok cached.jwks
            state := { c with semFree := false }
            fetcherCalls := 0
            spawnedRefresh := true }
        else
          let r := CachingProvider.refreshKey { c with semFree := false } issuer tRefresh env
          { result := r.1
            state := { r.2 with semFree := true }
            fetcherCalls := 1
            spawnedRefresh := false }
      else
        { result := .ok cached.jwks, state := c, fetcherCalls := 0, spawnedRefresh := false }
    else
      { result := .ok cached.jwks, state := c, fetcherCalls := 0, spawnedRefresh := false }
  | none =>
    let r := CachingProvider.refreshKey c issuer tRefresh env
    { result := r.1, state := r.2, fetcherCalls := 1, spawnedRefresh := false }

/-- The goroutine body spawned by the asynchronous branch
(`jwks/provider.go:168-179`): run `refreshKey` on an independent 15-second
timeout context (`tBg` is the `time.Now()` it observes); if it failed,
take the write lock and delete the issuer's entry; finally release the
semaphore permit. -/
def CachingProvider.backgroundRefresh (c : CachingProvider) (tBg : Int)
    (env : Env) : CachingProvider :=
  let issuer := c.provider.IssuerURL.hostname
  match CachingProvider.refreshKey c issuer tBg env with
  | (.error _, c2) => { c2 with cache := mapDelete c2.cache issuer, semFree := true }
  | (.ok _, c2) => { c2 with semFree := true }

/-- `ProviderOption` — `func(*Provider)` as a state transformer. -/
def ProviderOption : Type := Provider → Provider

/-- `CachingProviderOption` — `func(*CachingProvider)`. -/
def CachingProviderOption : Type := CachingProvider → CachingProvider

/-- `WithCustomJWKSURI`. -/
def WithCustomJWKSURI (jwksURI : URL) : ProviderOption :=
  fun p => { p with CustomJWKSURI := some jwksURI }

/-- `WithCustomClient`. -/
def WithCustomClient (c : HTTPClient) : ProviderOption :=
  fun p => { p with Client := c }

/-- `WithSynchronousRefresh`. -/
def WithSynchronousRefresh (blocking : Bool) : CachingProviderOption :=
  fun cp => { cp with synchronousRefresh := blocking }

/-- `NewProvider` (`jwks/provider.go:31-42`): default client, then apply
the options in order. `defaultClient` stands for the zero `&http.Client{}`. -/
def defaultClient : HTTPClient := ⟨fun _ => .error (.mk "no transport configured")⟩

/-- `NewProvider`. -/
def NewProvider (issuerURL : URL) (opts : List ProviderOption) : Provider :=
  opts.foldl (fun p opt => opt p)
    { IssuerURL := issuerURL, CustomJWKSURI := none, Client := defaultClient }

/-- A Go `panic` value, carrying the panic message. -/
structure GoPanic where
  msg : String
deriving DecidableEq, Repr

/-- A value passed through `NewCachingProvider`'s variadic
`opts ...interface\x7b\x7d` list: dynamically it is a `ProviderOption`, a
`CachingProviderOption`, or some other type entirely (identified here by
its type name, which is all the `panic` message uses). -/
inductive DynOpt where
  | providerOption (f : ProviderOption)
  | cachingProviderOption (f : CachingProviderOption)
  | otherType (typeName : String)

/-- The option-dispatch loop of `NewCachingProvider`
(`jwks/provider.go:130-143`): a type switch that partitions the dynamic
options into the two typed lists, panicking on the first value of any
other type. -/
def partitionOpts : List DynOpt →
    Except GoPanic (List ProviderOption × List CachingProviderOption)
  | [] => .ok ([], [])
  | .providerOption f :: rest =>
    match partitionOpts rest with
    | .error p => .error p
    | .ok (ps, cs) => .ok (f :: ps, cs)
  | .cachingProviderOption f :: rest =>
    match partitionOpts rest with
    | .error p => .error p
    | .ok (ps, cs) => .ok (ps, f :: cs)
  | .otherType t :: _ => .error ⟨"invalid option type: " ++ t⟩

/-- `time.Minute` in nanoseconds. -/
def oneMinute : Int := 60000000000

/-- `NewCachingProvider` (`jwks/provider.go:125-156`): zero TTL defaults
to one minute; the dynamic options are dispatched (panicking on an
unknown type); the provider is built with an empty cache, a fresh
one-permit semaphore, and asynchronous refresh; caching options are
applied last. -/
def NewCachingProvider (issuerURL : URL) (cacheTTL : Int) (opts : List DynOpt) :
    Except GoPanic CachingProvider :=
  let cacheTTL := if cacheTTL = 0 then oneMinute else cacheTTL
  match partitionOpts opts with
  | .error p => .error p
  | .ok (providerOpts, cachingOpts) =>
    let cp : CachingProvider :=
      { provider := NewProvider issuerURL providerOpts
        CacheTTL := cacheTTL
        cache := []
        semFree := true
        synchronousRefresh := false }
    .ok (cachingOpts.foldl (fun c opt => opt c) cp)

/-!
## Interleaving semantics for the refresh protocol

For the concurrency claim the sequential embedding is not enough: we model
an arbitrary number of threads, each executing `CachingProvider.KeyFunc`,
broken into atomic steps at every lock/semaphore operation of the source.
Shared state is the issuer's cache slot (present or not — a single
`CachingProvider` serves a single issuer hostname), the `sync.RWMutex`
(reader count plus writer flag) and the one-permit semaphore. Time and
fetch outcomes are nondeterministic. A thread sits at `missFetch`,
`syncFetch` or `bgFetch` exactly while its `Provider.KeyFunc` network
fetch is in flight inside `refreshKey` — which the source performs while
holding the write lock.
-/

/-- Program counter of one thread executing `CachingProvider.KeyFunc`
(or of a spawned background-refresh goroutine). -/
inductive TPC where
  | start
  | reading
  | missLock
  | syncLock
  | bgLock
  | missFetch
  | syncFetch
  | bgFetch
  | bgEvictLock
  | finished
deriving DecidableEq, Repr

/-- Global state: thread pool, reader count and writer flag of the
`RWMutex`, the semaphore permit, and whether the issuer's cache slot holds
an entry. -/
structure Sys where
  threads : List TPC
  readers : Nat
  writer : Bool
  semFree : Bool
  hasEntry : Bool
deriving DecidableEq, Repr

/-- One atomic step of the system, with the `synchronousRefresh`
configuration fixed as `sync`. The thread taking the step is singled out
by splitting the pool as `l ++ pc :: r`. Steps follow
`jwks/provider.go:161-195` line by line:

* `rlock`: `c.mu.RLock()` — blocks while a writer holds the lock.
* `missReturnPath`: the read under the read lock found no entry; releases
  the read lock and heads for `refreshKey`'s `c.mu.Lock()`.
* `freshReturn`: entry present and `time.Now().After(expiresAt)` is false
  (short-circuit: the semaphore is not touched); returns the entry.
* `staleNoPermit`: entry expired but `TryAcquire(1)` fails; returns the
  stale entry.
* `spawnAsync` / `beginSync`: entry expired, permit acquired; either spawn
  the goroutine and return the stale entry, or head for a synchronous
  `refreshKey`.
* `missAcquire`/`syncAcquire`/`bgAcquire`: `c.mu.Lock()` inside
  `refreshKey` — requires no readers and no writer.
* `…FetchOk`/`…FetchErr`: the fetch resolves (nondeterministically) while
  the write lock is held; on success the entry is stored and the lock
  released; sync and bg paths also release the permit on their way out
  (the bg error path only after evicting).
* `bgEvict`: the failed goroutine retakes the write lock, deletes the
  entry, unlocks and releases the permit. -/
inductive Step (sync : Bool) : Sys → Sys → Prop where
  | rlock (l r : List TPC) (rd : Nat) (sem he : Bool) :
      Step sync ⟨l ++ TPC.start :: r, rd, false, sem, he⟩
               ⟨l ++ TPC.reading :: r, rd + 1, false, sem, he⟩
  | missReturnPath (l r : List TPC) (rd : Nat) (w sem : Bool) :
      Step sync ⟨l ++ TPC.reading :: r, rd + 1, w, sem, false⟩
               ⟨l ++ TPC.missLock :: r, rd, w, sem, false⟩
  | freshReturn (l r : List TPC) (rd : Nat) (w sem : Bool) :
      Step sync ⟨l ++ TPC.reading :: r, rd + 1, w, sem, true⟩
               ⟨l ++ TPC.finished :: r, rd, w, sem, true⟩
  | staleNoPermit (l r : List TPC) (rd : Nat) (w : Bool) :
      Step sync ⟨l ++ TPC.reading :: r, rd + 1, w, false, true⟩
               ⟨l ++ TPC.finished :: r, rd, w, false, true⟩
  | spawnAsync (l r : List TPC) (rd : Nat) (w : Bool) (hsync : sync = false) :
      Step sync ⟨l ++ TPC.reading :: r, rd + 1, w, true, true⟩
               ⟨(l ++ TPC.finished :: r) ++ [TPC.bgLock], rd, w, false, true⟩
  | beginSync (l r : List TPC) (rd : Nat) (w : Bool) (hsync : sync = true) :
      Step sync ⟨l ++ TPC.reading :: r, rd + 1, w, true, true⟩
               ⟨l ++ TPC.syncLock :: r, rd, w, false, true⟩
  | missAcquire (l r : List TPC) (sem he : Bool) :
      Step sync ⟨l ++ TPC.missLock :: r, 0, false, sem, he⟩
               ⟨l ++ TPC.missFetch :: r, 0, true, sem, he⟩
  | missFetchOk (l r : List TPC) (sem he : Bool) :
      Step sync ⟨l ++ TPC.missFetch :: r, 0, true, sem, he⟩
               ⟨l ++ TPC.finished :: r, 0, false, sem, true⟩
  | missFetchErr (l r : List TPC) (sem he : Bool) :
      Step sync ⟨l ++ TPC.missFetch :: r, 0, true, sem, he⟩
               ⟨l ++ TPC.finished :: r, 0, false, sem, he⟩
  | syncAcquire (l r : List TPC) (sem he : Bool) :
      Step sync ⟨l ++ TPC.syncLock :: r, 0, false, sem, he⟩
               ⟨l ++ TPC.syncFetch :: r, 0, true, sem, he⟩
  | syncFetchOk (l r : List TPC) (sem he : Bool) :
      Step sync ⟨l ++ TPC.syncFetch :: r, 0, true, sem, he⟩
               ⟨l ++ TPC.finished :: r, 0, false, true, true⟩
  | syncFetchErr (l r : List TPC) (sem he : Bool) :
      Step sync ⟨l ++ TPC.syncFetch :: r, 0, true, sem, he⟩
               ⟨l ++ TPC.finished :: r, 0, false, true, he⟩
  | bgAcquire (l r : List TPC) (sem he : Bool) :
      Step sync ⟨l ++ TPC.bgLock :: r, 0, false, sem, he⟩
               ⟨l ++ TPC.bgFetch :: r, 0, true, sem, he⟩
  | bgFetchOk (l r : List TPC) (sem he : Bool) :
      Step sync ⟨l ++ TPC.bgFetch :: r, 0, true, sem, he⟩
               ⟨l ++ TPC.finished :: r, 0, false, true, true⟩
  | bgFetchErr (l r : List TPC) (sem he : Bool) :
      Step sync ⟨l ++ TPC.bgFetch :: r, 0, true, sem, he⟩
               ⟨l ++ TPC.bgEvictLock :: r, 0, false, sem, he⟩
  | bgEvict (l r : List TPC) (sem he : Bool) :
      Step sync ⟨l ++ TPC.bgEvictLock :: r, 0, false, sem, he⟩
               ⟨l ++ TPC.finished :: r, 0, false, true, false⟩

/-- `n` callers about to enter `KeyFunc` on a freshly constructed
provider: empty cache, permit available, no lock held. -/
def initSys (n : Nat) : Sys :=
  ⟨List.replicate n TPC.start, 0, false, true, false⟩

/-- States reachable from `s0` by the interleaving semantics. -/
inductive Reachable (sync : Bool) (s0 : Sys) : Sys → Prop where
  | refl : Reachable sync s0 s0
  | tail {s s2 : Sys} : Reachable sync s0 s → Step sync s s2 → Reachable sync s0 s2

/-- Indicator of the program counters at which a refresh's network fetch
is in flight (inside `Provider.KeyFunc`, under the write lock). -/
def fetchWeight : TPC → Nat
  | TPC.missFetch => 1
  | TPC.syncFetch => 1
  | TPC.bgFetch => 1
  | _ => 0

/-- Number of refreshes in flight: threads currently performing a fetch. -/
def refreshesInFlight (s : Sys) : Nat :=
  (s.threads.map fetchWeight).sum

/-!
## Concrete fixtures

Closed values used by counterexamples and by the witness instances of the
theorems below.
-/

/-- An issuer URL. -/
def issuerExample : URL := ⟨"https://idp.example.com", "idp.example.com"⟩

/-- A JWKS endpoint on the same host. -/
def jwksURIExample : URL :=
  ⟨"https://idp.example.com/.well-known/jwks.json", "idp.example.com"⟩

/-- A key set with one RSA key. -/
def keySetA : JSONWebKeySet := ⟨[⟨"key-1", "RS256", "modulus-a"⟩]⟩

/-- A second, distinct key set (a rotated key). -/
def keySetB : JSONWebKeySet := ⟨[⟨"key-2", "RS256", "modulus-b"⟩]⟩

/-- Stdlib primitives behaving normally: requests build, URLs parse on the
example host, the discovery document advertises `jwksURIExample`, and any
body decodes to `keySetA`. -/
def stdEnv : Env :=
  { newRequest := fun m u => .ok ⟨m, u⟩
    parseURL := fun s => .ok ⟨s, "idp.example.com"⟩
    decodeWellKnown := fun _ => .ok ⟨jwksURIExample.raw⟩
    decodeJWKS := fun _ => .ok keySetA }

/-- Same primitives, but every body decodes to `keySetB`. -/
def rotatedEnv : Env := { stdEnv with decodeJWKS := fun _ => .ok keySetB }

/-- Same primitives, but JWKS bodies fail to decode. -/
def badBodyEnv : Env :=
  { stdEnv with decodeJWKS := fun _ => .error (.mk "unexpected end of JSON input") }

/-- A transport that answers every request with `200` and a JWKS body. -/
def okClient : HTTPClient := ⟨fun _ => .ok ⟨200, "jwks-body"⟩⟩

/-- A transport that refuses every connection. -/
def downClient : HTTPClient := ⟨fun _ => .error (.mk "connection refused")⟩

/-- A provider with a custom JWKS URI and a healthy transport. -/
def providerExample : Provider := ⟨issuerExample, some jwksURIExample, okClient⟩

/-- A caching provider over `providerExample`: TTL 100, empty cache,
permit free, asynchronous refresh (the constructor defaults). -/
def cpEmpty : CachingProvider :=
  { provider := providerExample, CacheTTL := 100, cache := [], semFree := true
    synchronousRefresh := false }

/-- A cache entry for the example issuer holding `keySetA`, expiring at 1000. -/
def entryA : cachedJWKS := ⟨keySetA, 1000⟩

/-- `cpEmpty` with `entryA` installed for the example issuer. -/
def cpWarm : CachingProvider := { cpEmpty with cache := [("idp.example.com", entryA)] }

/-- `cpWarm` configured for synchronous refresh. -/
def cpWarmSync : CachingProvider := { cpWarm with synchronousRefresh := true }

/-!
## Map lemmas
-/

/-- Looking up a key just stored finds exactly the stored entry. -/
theorem mapLookup_mapStore_self (m : List (String × cachedJWKS)) (k : String)
    (v : cachedJWKS) : mapLookup (mapStore m k v) k = some v := by
  induction m with
  | nil => simp [mapStore, mapLookup]
  | cons hd tl ih =>
    obtain ⟨k2, v2⟩ := hd
    by_cases h : k2 = k <;> simp [mapStore, mapLookup, h, ih]

/-- Looking up a key just deleted finds nothing. -/
theorem mapLookup_mapDelete_self (m : List (String × cachedJWKS)) (k : String) :
    mapLookup (mapDelete m k) k = none := by
  induction m with
  | nil => simp [mapDelete, mapLookup]
  | cons hd tl ih =>
    obtain ⟨k2, v2⟩ := hd
    by_cases h : k2 = k <;> simp [mapDelete, mapLookup, h, ih]

/-!
## Claims
-/

/-- C2: for an issuer with no cache entry, `CachingProvider.KeyFunc`
performs exactly one Key Fetcher invocation and, on success, installs a
cache entry for that issuer expiring at the refresh's `time.Now()` plus
the configured TTL — within any clock tolerance `tol` bounding how far the
clock advanced past the call time `now` — and returns the fetched KeySet
with no error. -/
theorem c2_cache_miss_fetches_once_and_installs_entry
    (c : CachingProvider) (now tRefresh tol : Int) (env : Env) (ks : JSONWebKeySet)
    (hmiss : mapLookup c.cache c.provider.IssuerURL.hostname = none)
    (hfetch : (c.provider.KeyFunc env).1 = .ok ks) :
    (c.KeyFunc now tRefresh env).fetcherCalls = 1 ∧
    (c.KeyFunc now tRefresh env).result = .ok ks ∧
    mapLookup (c.KeyFunc now tRefresh env).state.cache c.provider.IssuerURL.hostname =
      some ⟨ks, tRefresh + c.CacheTTL⟩ ∧
    (0 ≤ tRefresh - now → tRefresh - now ≤ tol →
      now + c.CacheTTL ≤ tRefresh + c.CacheTTL ∧
      tRefresh + c.CacheTTL ≤ (now + c.CacheTTL) + tol) := by
  refine ⟨?_, ?_, ?_, ?_⟩ <;>
    simp [CachingProvider.KeyFunc, CachingProvider.refreshKey, hmiss, hfetch,
      mapLookup_mapStore_self]
  omega

/-- Witness for C2 at a concrete caching provider with an empty cache. -/
theorem c2_witness :
    (cpEmpty.KeyFunc 0 5 stdEnv).fetcherCalls = 1 ∧
    (cpEmpty.KeyFunc 0 5 stdEnv).result = .ok keySetA ∧
    mapLookup (cpEmpty.KeyFunc 0 5 stdEnv).state.cache
      cpEmpty.provider.IssuerURL.hostname = some ⟨keySetA, 5 + cpEmpty.CacheTTL⟩ ∧
    ((0 : Int) ≤ 5 - 0 → (5 : Int) - 0 ≤ 10 →
      0 + cpEmpty.CacheTTL ≤ 5 + cpEmpty.CacheTTL ∧
      5 + cpEmpty.CacheTTL ≤ (0 + cpEmpty.CacheTTL) + 10) :=
  c2_cache_miss_fetches_once_and_installs_entry cpEmpty 0 5 10 stdEnv keySetA rfl rfl

/-- C3: for an issuer whose cache entry is still valid (`now <
expiresAt`), `CachingProvider.KeyFunc` performs zero fetches, changes
nothing (in particular triggers no refresh and spawns no goroutine), and
returns the cached KeySet with no error. -/
theorem c3_valid_entry_served_from_cache_without_fetch
    (c : CachingProvider) (now tRefresh : Int) (env : Env) (cached : cachedJWKS)
    (hhit : mapLookup c.cache c.provider.IssuerURL.hostname = some cached)
    (hvalid : now < cached.expiresAt) :
    c.KeyFunc now tRefresh env =
      { result := .ok cached.jwks, state := c, fetcherCalls := 0,
        spawnedRefresh := false } := by
  have hne : ¬ now > cached.expiresAt := by omega
  simp [CachingProvider.KeyFunc, hhit, hne]

/-- Witness for C3 at a warm cache, 500 time units before expiry. -/
theorem c3_witness :
    cpWarm.KeyFunc 500 0 stdEnv =
      { result := .ok entryA.jwks, state := cpWarm, fetcherCalls := 0,
        spawnedRefresh := false } :=
  c3_valid_entry_served_from_cache_without_fetch cpWarm 500 0 stdEnv entryA rfl
    (by decide)

/-- C10: expiry is strict — `time.Now().After(expiresAt)` is a strict
comparison, so at `now = expiresAt` exactly the entry counts as not
expired: the cached KeySet is returned, no refresh is triggered and the
semaphore is not touched. -/
theorem c10_entry_at_exact_expiry_not_refreshed
    (c : CachingProvider) (now tRefresh : Int) (env : Env) (cached : cachedJWKS)
    (hhit : mapLookup c.cache c.provider.IssuerURL.hostname = some cached)
    (hboundary : now = cached.expiresAt) :
    c.KeyFunc now tRefresh env =
      { result := .ok cached.jwks, state := c, fetcherCalls := 0,
        spawnedRefresh := false } := by
  have hne : ¬ now > cached.expiresAt := by omega
  simp [CachingProvider.KeyFunc, hhit, hne]

/-- Witness for C10 at a warm cache with `now` exactly the entry's expiry. -/
theorem c10_witness :
    cpWarm.KeyFunc 1000 0 stdEnv =
      { result := .ok entryA.jwks, state := cpWarm, fetcherCalls := 0,
        spawnedRefresh := false } :=
  c10_entry_at_exact_expiry_not_refreshed cpWarm 1000 0 stdEnv entryA rfl (by decide)

/-- C6: `refreshKey` either succeeds — returning the fetched KeySet and
storing a whole new entry for the issuer expiring at `now + CacheTTL` —
or fails, returning the fetch error with the provider state (in
particular the cache map) completely unchanged: `refreshKey` itself never
evicts or partially updates an entry. -/
theorem c6_refreshKey_stores_on_success_untouched_on_failure
    (c : CachingProvider) (issuer : String) (now : Int) (env : Env)
    (ks : JSONWebKeySet) (e : GoError) :
    ((c.provider.KeyFunc env).1 = .ok ks →
      CachingProvider.refreshKey c issuer now env =
        (.ok ks, { c with cache := mapStore c.cache issuer ⟨ks, now + c.CacheTTL⟩ })) ∧
    ((c.provider.KeyFunc env).1 = .error e →
      CachingProvider.refreshKey c issuer now env = (.error e, c)) := by
  constructor <;> intro h <;> simp [CachingProvider.refreshKey, h]

/-- Witness for C6: one successful refresh (entry stored) and one failed
refresh (state returned exactly as it was). -/
theorem c6_witness :
    CachingProvider.refreshKey cpEmpty "idp.example.com" 7 stdEnv =
      (.ok keySetA,
       { cpEmpty with
          cache := mapStore cpEmpty.cache "idp.example.com" ⟨keySetA, 7 + cpEmpty.CacheTTL⟩ }) ∧
    CachingProvider.refreshKey cpEmpty "idp.example.com" 7 badBodyEnv =
      (.error (.wrap "could not decode jwks" (.mk "unexpected end of JSON input")),
       cpEmpty) :=
  ⟨(c6_refreshKey_stores_on_success_untouched_on_failure cpEmpty "idp.example.com" 7
      stdEnv keySetA (.mk "unused")).1 rfl,
   (c6_refreshKey_stores_on_success_untouched_on_failure cpEmpty "idp.example.com" 7
      badBodyEnv keySetA
      (.wrap "could not decode jwks" (.mk "unexpected end of JSON input"))).2 rfl⟩

/-- C4: for an expired entry in asynchronous mode with the semaphore
permit available, `KeyFunc` spawns a background refresh and returns the
stale cached KeySet at once — zero fetches on the caller's path, cache
unchanged at return time. If that background refresh fails, the goroutine
deletes the issuer's entry, so the next `KeyFunc` call finds no entry and
performs one fetch from scratch. -/
theorem c4_async_expired_returns_stale_and_failed_refresh_evicts
    (c : CachingProvider) (now tRefresh tBg now2 tR2 : Int)
    (env envBg env2 : Env) (cached : cachedJWKS) (e : GoError)
    (hhit : mapLookup c.cache c.provider.IssuerURL.hostname = some cached)
    (hexpired : now > cached.expiresAt)
    (hsem : c.semFree = true)
    (hasync : c.synchronousRefresh = false)
    (hfail : (c.provider.KeyFunc envBg).1 = .error e) :
    ((c.KeyFunc now tRefresh env).result = .ok cached.jwks ∧
     (c.KeyFunc now tRefresh env).fetcherCalls = 0 ∧
     (c.KeyFunc now tRefresh env).spawnedRefresh = true ∧
     (c.KeyFunc now tRefresh env).state.cache = c.cache) ∧
    (mapLookup ((c.KeyFunc now tRefresh env).state.backgroundRefresh tBg envBg).cache
        c.provider.IssuerURL.hostname = none ∧
     (((c.KeyFunc now tRefresh env).state.backgroundRefresh tBg envBg).KeyFunc
        now2 tR2 env2).fetcherCalls = 1) := by
  have hk : c.KeyFunc now tRefresh env =
      { result := .ok cached.jwks, state := { c with semFree := false },
        fetcherCalls := 0, spawnedRefresh := true } := by
    simp [CachingProvider.KeyFunc, hhit, hexpired, hsem, hasync]
  have hbg : (c.KeyFunc now tRefresh env).state.backgroundRefresh tBg envBg =
      { c with
          cache := mapDelete c.cache c.provider.IssuerURL.hostname
          semFree := true } := by
    rw [hk]
    simp [CachingProvider.backgroundRefresh, CachingProvider.refreshKey, hfail]
  refine ⟨⟨by rw [hk], by rw [hk], by rw [hk], by rw [hk]⟩, ?_, ?_⟩
  · rw [hbg]
    exact mapLookup_mapDelete_self c.cache c.provider.IssuerURL.hostname
  · rw [hbg]
    simp [CachingProvider.KeyFunc, mapLookup_mapDelete_self]

/-- Witness for C4: expired warm cache, healthy foreground environment,
JWKS bodies undecodable during the background refresh. -/
theorem c4_witness :
    ((cpWarm.KeyFunc 2000 0 stdEnv).result = .ok entryA.jwks ∧
     (cpWarm.KeyFunc 2000 0 stdEnv).fetcherCalls = 0 ∧
     (cpWarm.KeyFunc 2000 0 stdEnv).spawnedRefresh = true ∧
     (cpWarm.KeyFunc 2000 0 stdEnv).state.cache = cpWarm.cache) ∧
    (mapLookup ((cpWarm.KeyFunc 2000 0 stdEnv).state.backgroundRefresh 2050 badBodyEnv).cache
        cpWarm.provider.IssuerURL.hostname = none ∧
     (((cpWarm.KeyFunc 2000 0 stdEnv).state.backgroundRefresh 2050 badBodyEnv).KeyFunc
        2100 2101 stdEnv).fetcherCalls = 1) :=
  c4_async_expired_returns_stale_and_failed_refresh_evicts cpWarm 2000 0 2050 2100 2101
    stdEnv badBodyEnv stdEnv entryA
    (.wrap "could not decode jwks" (.mk "unexpected end of JSON input"))
    rfl (by decide) rfl rfl rfl

/-- C5: for an expired entry in synchronous mode with the permit
available, `KeyFunc` runs the refresh on the caller's context and returns
exactly the refresh's result — one fetch, no goroutine; the fresh KeySet
on success, the fetch error on failure, and in the failure case the stale
cached KeySet is not returned. -/
theorem c5_sync_expired_returns_refresh_result
    (c : CachingProvider) (now tRefresh : Int) (env : Env) (cached : cachedJWKS)
    (ks : JSONWebKeySet) (e : GoError)
    (hhit : mapLookup c.cache c.provider.IssuerURL.hostname = some cached)
    (hexpired : now > cached.expiresAt)
    (hsem : c.semFree = true)
    (hsync : c.synchronousRefresh = true) :
    (c.KeyFunc now tRefresh env).fetcherCalls = 1 ∧
    (c.KeyFunc now tRefresh env).spawnedRefresh = false ∧
    (c.KeyFunc now tRefresh env).result =
      (CachingProvider.refreshKey { c with semFree := false }
        c.provider.IssuerURL.hostname tRefresh env).1 ∧
    ((c.provider.KeyFunc env).1 = .ok ks →
      (c.KeyFunc now tRefresh env).result = .ok ks) ∧
    ((c.provider.KeyFunc env).1 = .error e →
      (c.KeyFunc now tRefresh env).result = .error e ∧
      (c.KeyFunc now tRefresh env).result ≠ .ok cached.jwks) := by
  have hk : c.KeyFunc now tRefresh env =
      { result := (CachingProvider.refreshKey { c with semFree := false }
          c.provider.IssuerURL.hostname tRefresh env).1
        state := { (CachingProvider.refreshKey { c with semFree := false }
          c.provider.IssuerURL.hostname tRefresh env).2 with semFree := true }
        fetcherCalls := 1, spawnedRefresh := false } := by
    simp [CachingProvider.KeyFunc, hhit, hexpired, hsem, hsync]
  refine ⟨by rw [hk], by rw [hk], by rw [hk], ?_, ?_⟩
  · intro h
    rw [hk]
    simp [CachingProvider.refreshKey, h]
  · intro h
    rw [hk]
    simp [CachingProvider.refreshKey, h]

/-- Witness for C5: a synchronous provider with an expired entry, applied
once with rotated keys being served (fresh set returned) and once with an
undecodable body (error returned, stale set not returned). -/
theorem c5_witness :
    (cpWarmSync.KeyFunc 2000 2001 rotatedEnv).result = .ok keySetB ∧
    ((cpWarmSync.KeyFunc 2000 2001 badBodyEnv).result =
       .error (.wrap "could not decode jwks" (.mk "unexpected end of JSON input")) ∧
     (cpWarmSync.KeyFunc 2000 2001 badBodyEnv).result ≠ .ok entryA.jwks) :=
  ⟨(c5_sync_expired_returns_refresh_result cpWarmSync 2000 2001 rotatedEnv entryA
      keySetB (.mk "unused") rfl (by decide) rfl rfl).2.2.2.1 rfl,
   (c5_sync_expired_returns_refresh_result cpWarmSync 2000 2001 badBodyEnv entryA
      keySetB (.wrap "could not decode jwks" (.mk "unexpected end of JSON input"))
      rfl (by decide) rfl rfl).2.2.2.2 rfl⟩

/-- A provider relying on discovery (no custom JWKS URI) whose transport
refuses every connection. -/
def providerDiscovery : Provider := ⟨issuerExample, none, downClient⟩

/-- The error discovery produces over `downClient`: the refusal, wrapped
by `Client.Do` with the operation, wrapped by the discovery layer. -/
def discoveryDownError : GoError :=
  .wrap "could not get well known endpoints from url"
    (.wrap ("GET https://idp.example.com/.well-known/openid-configuration")
      (.mk "connection refused"))

/-- C8: `Provider.KeyFunc` endpoint resolution. With a custom JWKS URI
configured, no discovery call is made and any JWKS request issued targets
exactly that URI. Without one, exactly one discovery call is performed,
and a discovery failure is returned as the error with no JWKS fetch
attempted. -/
theorem c8_custom_uri_skips_discovery_and_discovery_failure_stops
    (p : Provider) (env : Env) (u : URL) (e : GoError) :
    (p.CustomJWKSURI = some u →
      (p.KeyFunc env).2.discoveryCalls = 0 ∧
      ((p.KeyFunc env).2.requestedURL = none ∨
       (p.KeyFunc env).2.requestedURL = some u.raw)) ∧
    (p.CustomJWKSURI = none →
      (p.KeyFunc env).2.discoveryCalls = 1 ∧
      (GetWellKnownEndpointsFromIssuerURL env p.Client p.IssuerURL = .error e →
        (p.KeyFunc env).1 = .error e ∧ (p.KeyFunc env).2.jwksRequests = 0)) := by
  constructor
  · intro h
    cases hr : env.newRequest "GET" u.raw with
    | error e2 => simp [Provider.KeyFunc, h, hr]
    | ok req =>
      cases hc : clientDo p.Client req with
      | error e2 => simp [Provider.KeyFunc, h, hr, hc]
      | ok resp =>
        cases hd : env.decodeJWKS resp.body with
        | error e2 => simp [Provider.KeyFunc, h, hr, hc, hd]
        | ok jwks => simp [Provider.KeyFunc, h, hr, hc, hd]
  · intro h
    constructor
    · cases hw : GetWellKnownEndpointsFromIssuerURL env p.Client p.IssuerURL with
      | error e2 => simp [Provider.KeyFunc, h, hw]
      | ok wk =>
        cases hp : env.parseURL wk.JWKSURI with
        | error e2 => simp [Provider.KeyFunc, h, hw, hp]
        | ok u2 =>
          cases hr : env.newRequest "GET" u2.raw with
          | error e2 => simp [Provider.KeyFunc, h, hw, hp, hr]
          | ok req =>
            cases hc : clientDo p.Client req with
            | error e2 => simp [Provider.KeyFunc, h, hw, hp, hr, hc]
            | ok resp =>
              cases hd : env.decodeJWKS resp.body with
              | error e2 => simp [Provider.KeyFunc, h, hw, hp, hr, hc, hd]
              | ok jwks => simp [Provider.KeyFunc, h, hw, hp, hr, hc, hd]
    · intro hw
      simp [Provider.KeyFunc, h, hw]

/-- Witness for C8: the custom-URI provider makes no discovery call;
the discovery provider over a dead transport makes one, reports the
discovery error and issues no JWKS request. -/
theorem c8_witness :
    ((providerExample.KeyFunc stdEnv).2.discoveryCalls = 0 ∧
     ((providerExample.KeyFunc stdEnv).2.requestedURL = none ∨
      (providerExample.KeyFunc stdEnv).2.requestedURL = some jwksURIExample.raw)) ∧
    ((providerDiscovery.KeyFunc stdEnv).2.discoveryCalls = 1 ∧
     ((providerDiscovery.KeyFunc stdEnv).1 = .error discoveryDownError ∧
      (providerDiscovery.KeyFunc stdEnv).2.jwksRequests = 0)) :=
  ⟨(c8_custom_uri_skips_discovery_and_discovery_failure_stops providerExample stdEnv
      jwksURIExample (.mk "unused")).1 rfl,
   ⟨((c8_custom_uri_skips_discovery_and_discovery_failure_stops providerDiscovery stdEnv
       jwksURIExample discoveryDownError).2 rfl).1,
    ((c8_custom_uri_skips_discovery_and_discovery_failure_stops providerDiscovery stdEnv
       jwksURIExample discoveryDownError).2 rfl).2 rfl⟩⟩

/-- The option-dispatch loop panics as soon as the list holds a value of
any other dynamic type. -/
theorem partitionOpts_error_of_otherType (opts : List DynOpt) (t : String)
    (h : DynOpt.otherType t ∈ opts) : ∃ p, partitionOpts opts = .error p := by
  induction opts with
  | nil => cases h
  | cons o rest ih =>
    cases o with
    | providerOption f =>
      obtain ⟨p, hp⟩ := ih (by
        rcases List.mem_cons.mp h with h2 | h2
        · cases h2
        · exact h2)
      exact ⟨p, by simp [partitionOpts, hp]⟩
    | cachingProviderOption f =>
      obtain ⟨p, hp⟩ := ih (by
        rcases List.mem_cons.mp h with h2 | h2
        · cases h2
        · exact h2)
      exact ⟨p, by simp [partitionOpts, hp]⟩
    | otherType t2 => exact ⟨⟨"invalid option type: " ++ t2⟩, rfl⟩

/-- On a list of genuine options the dispatch loop succeeds, and every
caching option it collects came from the list. -/
theorem partitionOpts_ok_of_valid (opts : List DynOpt)
    (h : ∀ o ∈ opts, (∃ f, o = DynOpt.providerOption f) ∨
      (∃ b, o = DynOpt.cachingProviderOption (WithSynchronousRefresh b))) :
    ∃ ps cs, partitionOpts opts = .ok (ps, cs) ∧
      ∀ f ∈ cs, ∃ b, f = WithSynchronousRefresh b := by
  induction opts with
  | nil => exact ⟨[], [], rfl, by simp⟩
  | cons o rest ih =>
    obtain ⟨ps, cs, hok, hcs⟩ :=
      ih (fun o2 ho2 => h o2 (List.mem_cons_of_mem _ ho2))
    rcases h o (List.mem_cons_self _ _) with ⟨f, rfl⟩ | ⟨b, rfl⟩
    · exact ⟨f :: ps, cs, by simp [partitionOpts, hok], hcs⟩
    · refine ⟨ps, WithSynchronousRefresh b :: cs, by simp [partitionOpts, hok], ?_⟩
      intro f hf
      rcases List.mem_cons.mp hf with hf | hf
      · exact ⟨b, hf⟩
      · exact hcs f hf

/-- `WithSynchronousRefresh` options only toggle the refresh mode, so a
fold over them leaves the cache and the semaphore untouched. -/
theorem foldl_withSynchronousRefresh_preserves (cs : List CachingProviderOption)
    (cp : CachingProvider)
    (h : ∀ f ∈ cs, ∃ b, f = WithSynchronousRefresh b) :
    (cs.foldl (fun c opt => opt c) cp).cache = cp.cache ∧
    (cs.foldl (fun c opt => opt c) cp).semFree = cp.semFree := by
  induction cs generalizing cp with
  | nil => exact ⟨rfl, rfl⟩
  | cons f rest ih =>
    obtain ⟨b, rfl⟩ := h f (List.mem_cons_self _ _)
    have := ih { cp with synchronousRefresh := b }
      (fun g hg => h g (List.mem_cons_of_mem _ hg))
    simpa [WithSynchronousRefresh] using this

/-- C9: `NewCachingProvider` panics if any variadic option is neither a
`ProviderOption` nor a `CachingProviderOption`; when every option is one
of the two (the caching ones being the exported `WithSynchronousRefresh`)
it returns a provider with an empty cache and the one-permit semaphore
fresh (permit available). -/
theorem c9_new_caching_provider_panics_on_bad_option
    (u : URL) (ttl : Int) (opts : List DynOpt) :
    ((∃ t, DynOpt.otherType t ∈ opts) →
      ∃ p, NewCachingProvider u ttl opts = .error p) ∧
    ((∀ o ∈ opts, (∃ f, o = DynOpt.providerOption f) ∨
        (∃ b, o = DynOpt.cachingProviderOption (WithSynchronousRefresh b))) →
      ∃ cp, NewCachingProvider u ttl opts = .ok cp ∧
        cp.cache = [] ∧ cp.semFree = true) := by
  constructor
  · rintro ⟨t, ht⟩
    obtain ⟨p, hp⟩ := partitionOpts_error_of_otherType opts t ht
    exact ⟨p, by simp [NewCachingProvider, hp]⟩
  · intro h
    obtain ⟨ps, cs, hok, hcs⟩ := partitionOpts_ok_of_valid opts h
    refine ⟨cs.foldl (fun c opt => opt c)
      { provider := NewProvider u ps
        CacheTTL := if ttl = 0 then oneMinute else ttl
        cache := []
        semFree := true
        synchronousRefresh := false }, by simp [NewCachingProvider, hok], ?_, ?_⟩
    · exact (foldl_withSynchronousRefresh_preserves cs _ hcs).1
    · exact (foldl_withSynchronousRefresh_preserves cs _ hcs).2

/-- Witness for C9: a stray non-option value makes construction panic; a
list of one provider option and one caching option yields a provider with
empty cache and a free permit. -/
theorem c9_witness :
    (∃ p, NewCachingProvider issuerExample 0 [DynOpt.otherType "string"] = .error p) ∧
    (∃ cp, NewCachingProvider issuerExample 100
        [DynOpt.providerOption (WithCustomJWKSURI jwksURIExample),
         DynOpt.cachingProviderOption (WithSynchronousRefresh true)] = .ok cp ∧
      cp.cache = [] ∧ cp.semFree = true) :=
  ⟨(c9_new_caching_provider_panics_on_bad_option issuerExample 0
      [DynOpt.otherType "string"]).1 ⟨"string", by simp⟩,
   (c9_new_caching_provider_panics_on_bad_option issuerExample 100
      [DynOpt.providerOption (WithCustomJWKSURI jwksURIExample),
       DynOpt.cachingProviderOption (WithSynchronousRefresh true)]).2 (by
    intro o ho
    rcases List.mem_cons.mp ho with h | ho2
    · exact Or.inl ⟨WithCustomJWKSURI jwksURIExample, h⟩
    · rcases List.mem_cons.mp ho2 with h | h
      · exact Or.inr ⟨true, h⟩
      · simp at h)⟩

/-- A transport answering every request with HTTP 500 and the body
`"\x7b\x7d"` (an empty JSON object). -/
def status500Client : HTTPClient := ⟨fun _ => .ok ⟨500, "\x7b\x7d"⟩⟩

/-- `encoding/json` on an empty JSON object: it decodes, into the zero
`jose.JSONWebKeySet` (no keys); other bodies fail. -/
def emptyObjectEnv : Env :=
  { stdEnv with
      decodeJWKS := fun s =>
        if s = "\x7b\x7d" then .ok ⟨[]⟩ else .error (.mk "invalid character") }

/-- A provider with a custom JWKS URI whose upstream serves only errors
with status 500. -/
def cexProvider : Provider := ⟨issuerExample, some jwksURIExample, status500Client⟩

/-- A provider with a custom JWKS URI over the refusing transport. -/
def providerDownCustom : Provider := ⟨issuerExample, some jwksURIExample, downClient⟩

/-- A transport that serves the discovery document but drops the
connection on every other request (so the JWKS fetch itself fails). -/
def flakyClient : HTTPClient :=
  ⟨fun req =>
    if req.url = issuerExample.raw ++ "/.well-known/openid-configuration"
      then .ok ⟨200, "wk-body"⟩
      else .error (.mk "connection reset")⟩

/-- A discovery-configured provider whose JWKS fetch fails in transport. -/
def providerDiscoveryFlaky : Provider := ⟨issuerExample, none, flakyClient⟩

/-- A discovery-configured provider over the healthy transport. -/
def providerDiscoveryUp : Provider := ⟨issuerExample, none, okClient⟩

/-- `Provider.KeyFunc` resolves its JWKS endpoint to `u`: either `u` is
the configured override, or no override is set and `u` is the parse of
the `jwks_uri` the discovery document advertises — the two resolution
modes of `jwks/provider.go:65-76`. -/
def resolvesJWKSURI (p : Provider) (env : Env) (u : URL) : Prop :=
  p.CustomJWKSURI = some u ∨
  (p.CustomJWKSURI = none ∧
    ∃ wk, GetWellKnownEndpointsFromIssuerURL env p.Client p.IssuerURL = .ok wk ∧
      env.parseURL wk.JWKSURI = .ok u)

/-- C1 counterexample: the claim says a non-success HTTP status results
in `(nil KeySet, error)`. It does not: `Provider.KeyFunc` never inspects
the status code. Against an upstream answering 500 with a decodable body,
the sole response has status 500 — not a success — yet `KeyFunc` returns
a KeySet (the empty set) with a nil error. -/
theorem c1_counterexample :
    clientDo cexProvider.Client ⟨"GET", jwksURIExample.raw⟩ =
      .ok ⟨500, "\x7b\x7d"⟩ ∧
    (500 : Nat) ≠ 200 ∧
    (cexProvider.KeyFunc emptyObjectEnv).1 = .ok ⟨[]⟩ :=
  ⟨rfl, by decide, rfl⟩

/-- Every failure of the discovery layer is a wrapped error naming the
failing operation. -/
theorem discovery_errors_carry_context (env : Env) (client : HTTPClient)
    (u : URL) (e : GoError)
    (h : GetWellKnownEndpointsFromIssuerURL env client u = .error e) :
    ∃ ctx e2, e = .wrap ctx e2 := by
  unfold GetWellKnownEndpointsFromIssuerURL at h
  split at h
  · simp at h
    exact ⟨_, _, h.symm⟩
  · split at h
    · simp at h
      exact ⟨_, _, h.symm⟩
    · split at h
      · simp at h
        exact ⟨_, _, h.symm⟩
      · simp at h

/-- C1 as amended: of the four failure kinds, discovery failure,
transport failure and an undecodable body each make `Provider.KeyFunc`
return `(nil KeySet, error)` — by the `Except` result type no KeySet
accompanies an error — and each such error carries operation context: a
discovery failure arrives already wrapped by the discovery layer and is
propagated as-is, a transport failure arrives wrapped by `Client.Do` with
the method and URL, and a decode failure is wrapped here with the
operation name — the latter two in both resolution modes, whether the
JWKS endpoint is the configured override or was obtained through
discovery. A non-success HTTP status alone is NOT an error: the
status is never inspected, so it surfaces only if the body fails to
decode (see the counterexample). -/
theorem c1_error_paths_yield_wrapped_errors
    (p : Provider) (env : Env) (e : GoError) (u : URL) (req : HTTPRequest)
    (resp : HTTPResponse) :
    (p.CustomJWKSURI = none →
      GetWellKnownEndpointsFromIssuerURL env p.Client p.IssuerURL = .error e →
      (p.KeyFunc env).1 = .error e ∧ ∃ ctx e2, e = .wrap ctx e2) ∧
    (resolvesJWKSURI p env u → env.newRequest "GET" u.raw = .ok req →
      p.Client.transport req = .error e →
      (p.KeyFunc env).1 = .error (.wrap (req.method ++ " " ++ req.url) e)) ∧
    (resolvesJWKSURI p env u → env.newRequest "GET" u.raw = .ok req →
      p.Client.transport req = .ok resp → env.decodeJWKS resp.body = .error e →
      (p.KeyFunc env).1 = .error (.wrap "could not decode jwks" e)) := by
  refine ⟨?_, ?_, ?_⟩
  · intro h hw
    exact ⟨by simp [Provider.KeyFunc, h, hw],
      discovery_errors_carry_context env p.Client p.IssuerURL e hw⟩
  · rintro (h | ⟨hn, wk, hwk, hp⟩) hr ht
    · simp [Provider.KeyFunc, h, hr, clientDo, ht]
    · simp [Provider.KeyFunc, hn, hwk, hp, hr, clientDo, ht]
  · rintro (h | ⟨hn, wk, hwk, hp⟩) hr ht hd
    · simp [Provider.KeyFunc, h, hr, clientDo, ht, hd]
    · simp [Provider.KeyFunc, hn, hwk, hp, hr, clientDo, ht, hd]

/-- Witness for the amended C1: a concrete discovery failure (propagated,
wrapped by the discovery layer); concrete transport and decode failures
under the custom-URI configuration; and concrete transport and decode
failures under the discovery configuration (endpoint resolved through the
discovery document), each wrapped with its operation. -/
theorem c1_witness :
    ((providerDiscovery.KeyFunc stdEnv).1 = .error discoveryDownError ∧
     ∃ ctx e2, discoveryDownError = .wrap ctx e2) ∧
    (providerDownCustom.KeyFunc stdEnv).1 =
      .error (.wrap ("GET" ++ " " ++ jwksURIExample.raw) (.mk "connection refused")) ∧
    (providerExample.KeyFunc badBodyEnv).1 =
      .error (.wrap "could not decode jwks" (.mk "unexpected end of JSON input")) ∧
    (providerDiscoveryFlaky.KeyFunc stdEnv).1 =
      .error (.wrap ("GET" ++ " " ++ jwksURIExample.raw) (.mk "connection reset")) ∧
    (providerDiscoveryUp.KeyFunc badBodyEnv).1 =
      .error (.wrap "could not decode jwks" (.mk "unexpected end of JSON input")) :=
  ⟨(c1_error_paths_yield_wrapped_errors providerDiscovery stdEnv discoveryDownError
      jwksURIExample ⟨"GET", jwksURIExample.raw⟩ ⟨200, "jwks-body"⟩).1 rfl rfl,
   (c1_error_paths_yield_wrapped_errors providerDownCustom stdEnv
      (.mk "connection refused") jwksURIExample ⟨"GET", jwksURIExample.raw⟩
      ⟨200, "jwks-body"⟩).2.1 (Or.inl rfl) rfl rfl,
   (c1_error_paths_yield_wrapped_errors providerExample badBodyEnv
      (.mk "unexpected end of JSON input") jwksURIExample
      ⟨"GET", jwksURIExample.raw⟩ ⟨200, "jwks-body"⟩).2.2 (Or.inl rfl) rfl rfl rfl,
   (c1_error_paths_yield_wrapped_errors providerDiscoveryFlaky stdEnv
      (.mk "connection reset") jwksURIExample ⟨"GET", jwksURIExample.raw⟩
      ⟨200, "wk-body"⟩).2.1
      (Or.inr ⟨rfl, ⟨jwksURIExample.raw⟩, rfl, rfl⟩) rfl rfl,
   (c1_error_paths_yield_wrapped_errors providerDiscoveryUp badBodyEnv
      (.mk "unexpected end of JSON input") jwksURIExample
      ⟨"GET", jwksURIExample.raw⟩ ⟨200, "jwks-body"⟩).2.2
      (Or.inr ⟨rfl, ⟨jwksURIExample.raw⟩, rfl, rfl⟩) rfl rfl rfl⟩

/-- The write lock serializes refreshes: every step preserves the
invariant that a fetch is in flight exactly while the writer flag is set
(and then in exactly one thread). The expired-entry paths additionally
funnel through the single semaphore permit before ever reaching a fetch. -/
theorem step_preserves_fetch_invariant {sync : Bool} {s s2 : Sys}
    (hs : Step sync s s2)
    (h1 : (s.threads.map fetchWeight).sum ≤ 1)
    (h2 : s.writer = false → (s.threads.map fetchWeight).sum = 0) :
    (s2.threads.map fetchWeight).sum ≤ 1 ∧
    (s2.writer = false → (s2.threads.map fetchWeight).sum = 0) := by
  cases hs <;> refine ⟨?_, fun hw => ?_⟩ <;>
    simp_all [List.map_append, List.sum_append, fetchWeight] <;> omega

/-- C7: at most one refresh is in flight at a time across the whole
cache. In every state reachable by any number of interleaved
`CachingProvider.KeyFunc` callers (and the goroutines they spawn), in
either refresh mode, the number of threads currently performing a
refresh's fetch is at most one — concurrent callers observing an expired
entry coalesce onto at most one fetch, and refreshes entered from the
cache-miss path are serialized with all others as well (for the miss
path the serialization is enforced by the write lock held across the
fetch rather than by the semaphore, which that path never takes). -/
theorem c7_no_two_refreshes_in_flight (sync : Bool) (n : Nat) (s : Sys)
    (h : Reachable sync (initSys n) s) : refreshesInFlight s ≤ 1 := by
  have hinv : (s.threads.map fetchWeight).sum ≤ 1 ∧
      (s.writer = false → (s.threads.map fetchWeight).sum = 0) := by
    induction h with
    | refl =>
      exact ⟨by simp [initSys, List.map_replicate, List.sum_replicate, fetchWeight],
        fun _ => by simp [initSys, List.map_replicate, List.sum_replicate, fetchWeight]⟩
    | tail hr hstep ih => exact step_preserves_fetch_invariant hstep ih.1 ih.2
  exact hinv.1

/-- Witness for C7: a three-step interleaving of one caller — read lock,
miss, write lock, fetch in flight — reaches a state with one active
fetch, and the bound holds there. -/
theorem c7_witness : refreshesInFlight ⟨[TPC.missFetch], 0, true, true, false⟩ ≤ 1 := by
  apply c7_no_two_refreshes_in_flight false 1
  have h1 : Reachable false (initSys 1) ⟨[TPC.reading], 1, false, true, false⟩ := by
    refine Reachable.tail Reachable.refl ?_
    have hstep := @Step.rlock false [] [] 0 true false
    simpa [initSys] using hstep
  have h2 : Reachable false (initSys 1) ⟨[TPC.missLock], 0, false, true, false⟩ := by
    refine Reachable.tail h1 ?_
    have hstep := @Step.missReturnPath false [] [] 0 false true
    simpa using hstep
  refine Reachable.tail h2 ?_
  have hstep := @Step.missAcquire false [] [] true false
  simpa using hstep

end JWKS
